import Mathlib

/-!
Verification development for the temperature-cron reconciliation engine of
the eightsleep-nosub-app repository (src/app/api/temperatureCron/route.ts,
plus the drizzle schema and the user router bundled with it).

Timestamps are modelled as integer milliseconds (JS Date getTime values).
Calendar days are the fixed 86400000 ms blocks delimited by multiples of
msPerDay; setHours on a base date is modelled as flooring the base to its
day start and adding the time of day.  Collaborators (database, device API,
token refresh) are modelled as fields of an explicit environment, each
returning Except; observable side effects are collected in a trace list.
-/

def msPerMin : Int := 60000

def msPerHour : Int := 3600000

def msPerDay : Int := 86400000

/-- A parsed time-of-day string, the two numeric components of HH:MM. -/
structure TimeHM where
  hours : Nat
  minutes : Nat
deriving DecidableEq, Repr

/-- createDateWithTime from route.ts: place the given time of day on the
calendar day of baseDate, zeroing seconds.  Returns none when the
components are out of range (the source throws).  baseDate minus its
(always nonnegative) remainder modulo msPerDay is the midnight of its day. -/
def createDateWithTime (baseDate : Int) (t : TimeHM) : Option Int :=
  if t.hours ≤ 23 ∧ t.minutes ≤ 59 then
    some (baseDate - baseDate % msPerDay + (t.hours : Int) * msPerHour + (t.minutes : Int) * msPerMin)
  else
    none

/-- isInTimeWindow from route.ts: membership of now in the half-open
interval from start to stop, with wraparound when start exceeds stop. -/
def isInTimeWindow (now start stop : Int) : Bool :=
  if start ≤ stop then
    decide (now ≥ start) && decide (now < stop)
  else
    decide (now ≥ start) || decide (now < stop)

/-- Outcome of the retry loop in retryApiCall: a returned value, a rethrown
last error, or the unreachable throw after the loop (retries = 0). -/
inductive RetryOutcome (ε α : Type) where
  | ok : α → RetryOutcome ε α
  | err : ε → RetryOutcome ε α
  | loopExit : RetryOutcome ε α
deriving DecidableEq, Repr

/-- Full observable behaviour of one retryApiCall run: its outcome, the
backoff delays slept in order (milliseconds), and how many times the
wrapped call was attempted. -/
structure RetryTrace (ε α : Type) where
  result : RetryOutcome ε α
  delays : List Nat
  attempts : Nat
deriving DecidableEq, Repr

/-- The retry loop of retryApiCall, attempt index i with the given fuel
(remaining iterations, so fuel = retries - i).  The wrapped call is
modelled as a function from the attempt index to its outcome.  On the last
allowed attempt (fuel 1) a failure is rethrown, otherwise the loop sleeps
1000 * 2 ^ i ms and retries. -/
def retryAux (call : Nat → Except ε α) : Nat → Nat → RetryTrace ε α
  | _, 0 => ⟨.loopExit, [], 0⟩
  | i, fuel + 1 =>
    match call i with
    | .ok a => ⟨.ok a, [], 1⟩
    | .error e =>
      if fuel = 0 then
        ⟨.err e, [], 1⟩
      else
        let t := retryAux call (i + 1) fuel
        ⟨t.result, 1000 * 2 ^ i :: t.delays, t.attempts + 1⟩

/-- retryApiCall from route.ts (retries defaults to 3 at every call site). -/
def retryApiCall (call : Nat → Except ε α) (retries : Nat) : RetryTrace ε α :=
  retryAux call 0 retries

/-- The six values of the stage discriminator in route.ts. -/
inductive SleepStage where
  | preheating
  | initial
  | mid
  | final
  | off
  | inactive
deriving DecidableEq, Repr

/-- StageResult from route.ts; targetLevel is absent for the off and
inactive stages. -/
structure StageResult where
  stage : SleepStage
  targetLevel : Option Int
deriving DecidableEq, Repr

/-- Lines 67 to 74 of route.ts: bed time and wakeup time placed on the day
of userNow, with the wakeup pushed to the next day when it does not come
strictly after the bed time.  none when either time string is invalid. -/
def bedAndWake (userNow : Int) (bedTimeStr wakeupTimeStr : TimeHM) : Option (Int × Int) :=
  match createDateWithTime userNow bedTimeStr, createDateWithTime userNow wakeupTimeStr with
  | some bedTime, some w0 => some (bedTime, if w0 ≤ bedTime then w0 + msPerDay else w0)
  | _, _ => none

/-- The body of the offsets loop of getCurrentSleepStage for one offset:
the five stage windows derived from bedTime and wakeupTime, checked in
source order (pre-heating, initial, mid, final, off). -/
def stageCheckCycle (userNow bedTime wakeupTime : Int)
    (initialLevel midLevel finalLevel : Int) (offset : Int) : Option StageResult :=
  if bedTime - msPerHour + offset ≤ userNow ∧ userNow < bedTime + offset then
    some ⟨.preheating, some initialLevel⟩
  else if bedTime + offset ≤ userNow ∧ userNow < bedTime + msPerHour + offset then
    some ⟨.initial, some initialLevel⟩
  else if bedTime + msPerHour + offset ≤ userNow ∧ userNow < wakeupTime - 2 * msPerHour + offset then
    some ⟨.mid, some midLevel⟩
  else if wakeupTime - 2 * msPerHour + offset ≤ userNow ∧ userNow < wakeupTime + offset then
    some ⟨.final, some finalLevel⟩
  else if wakeupTime + offset ≤ userNow ∧ userNow < wakeupTime + 30 * msPerMin + offset then
    some ⟨.off, none⟩
  else
    none

/-- getCurrentSleepStage from route.ts.  The source loops over the offsets
0 and minus 24 hours and returns at the first matching window; exhausting
both offsets yields the inactive stage.  none when a time string is
invalid (the source throws). -/
def getCurrentSleepStage (userNow : Int) (bedTimeStr wakeupTimeStr : TimeHM)
    (initialLevel midLevel finalLevel : Int) : Option StageResult :=
  match bedAndWake userNow bedTimeStr wakeupTimeStr with
  | none => none
  | some bw =>
    match stageCheckCycle userNow bw.1 bw.2 initialLevel midLevel finalLevel 0 with
    | some r => some r
    | none =>
      match stageCheckCycle userNow bw.1 bw.2 initialLevel midLevel finalLevel (-msPerDay) with
      | some r => some r
      | none => some ⟨.inactive, none⟩

/-- Token from the eight types module, as assembled in adjustTemperature. -/
structure Token where
  eightAccessToken : String
  eightRefreshToken : String
  eightExpiresAtPosix : Int
  eightUserId : String
deriving DecidableEq, Repr

/-- The columns of the users table which the cron reads. -/
structure UserRow where
  email : String
  eightUserId : String
  eightAccessToken : String
  eightRefreshToken : String
  eightTokenExpiresAt : Int
deriving DecidableEq, Repr

/-- The columns of the userTemperatureProfiles table which the cron reads. -/
structure TempProfileRow where
  bedTime : TimeHM
  wakeupTime : TimeHM
  initialSleepLevel : Int
  midStageSleepLevel : Int
  finalSleepLevel : Int
  cycleEnabled : Bool
  timezoneTZ : String
  preheatTime : TimeHM
  preheatLevel : Int
  preheatOnly : Bool
deriving DecidableEq, Repr

/-- The device heating status returned by getCurrentHeatingStatus. -/
structure HeatingStatus where
  isHeating : Bool
  heatingLevel : Int
deriving DecidableEq, Repr

/-- TestMode from route.ts (dry-run flag plus the simulated instant). -/
structure TestMode where
  enabled : Bool
  currentTime : Int
deriving DecidableEq, Repr

/-- The token value built from a joined user row at the top of the loop. -/
def mkToken (u : UserRow) : Token :=
  ⟨u.eightAccessToken, u.eightRefreshToken, u.eightTokenExpiresAt, u.eightUserId⟩

/-- Whether the optional testMode argument is present and enabled. -/
def testEnabled : Option TestMode → Bool
  | some t => t.enabled
  | none => false

/-- The now instant of one loop iteration: the simulated time in enabled
test mode, the wall clock otherwise. -/
def effectiveNow (tm : Option TestMode) (wallClock : Int) : Int :=
  match tm with
  | some t => if t.enabled then t.currentTime else wallClock
  | none => wallClock

/-- Observable side effects of a run: the profile-list fetch, the token
refresh call and its persisting database write, the device status query,
and the two device commands. -/
inductive Effect where
  | profileFetch
  | refreshCall (email : String)
  | dbTokenWrite (email : String) (t : Token)
  | statusQuery (email : String)
  | setPreheatCmd (userId : String) (level : Int) (durationSeconds : Int)
  | turnOffCmd (userId : String)
deriving DecidableEq, Repr

/-- The external collaborators of adjustTemperature.  Each collaborator is
deterministic within one run, so wrapping it in retryApiCall returns its
first outcome (a constant succeeding call returns at attempt one, a
constant failing call rethrows the same error after exhaustion); the
collaborator result is therefore used directly where the source wraps the
call in retryApiCall. -/
structure Env where
  profiles : Except String (List (UserRow × TempProfileRow))
  refreshToken : String → String → Except String Token
  heatingStatus : Token → Except String HeatingStatus
  setPreheat : Token → String → Int → Int → Except String Unit
  turnOff : Token → String → Except String Unit
  localize : String → Int → Int
  wallClock : Int

/-- The decision an iteration takes for the device, as in the spec data
model: a set-level command with a duration, a turn-off, or nothing. -/
inductive DeviceAction where
  | setLevel (level : Int) (durationSeconds : Int)
  | turnOff
  | noOp
deriving DecidableEq, Repr

/-- Lines 198 to 220 of route.ts: the sleep-cycle decision from the
resolved stage and the observed heating status. -/
def cycleAction (sr : StageResult) (status : HeatingStatus) : DeviceAction :=
  if sr.stage ≠ SleepStage.inactive ∧ sr.stage ≠ SleepStage.off ∧ sr.targetLevel ≠ none then
    if status.isHeating = false ∨ status.heatingLevel ≠ sr.targetLevel.getD 0 then
      DeviceAction.setLevel (sr.targetLevel.getD 0) 3600
    else
      DeviceAction.noOp
  else if sr.stage = SleepStage.off ∧ status.isHeating = true then
    DeviceAction.turnOff
  else
    DeviceAction.noOp

/-- Lines 136 to 149 of route.ts: outside test mode, when now is past the
stored expiry, refresh the token and persist it; otherwise keep the
stored token.  The refresh failure aborts this user. -/
def tokenRefreshStep (env : Env) (tm : Option TestMode) (user : UserRow) :
    List Effect × Except String Token :=
  if testEnabled tm = false ∧ effectiveNow tm env.wallClock > (mkToken user).eightExpiresAtPosix then
    match env.refreshToken user.eightRefreshToken user.eightUserId with
    | .error e => ([.refreshCall user.email], .error e)
    | .ok t1 => ([.refreshCall user.email, .dbTokenWrite user.email t1], .ok t1)
  else
    ([], .ok (mkToken user))

/-- Lines 154 to 160 of route.ts: in test mode a synthetic not-heating
status, otherwise the device status query. -/
def statusStep (env : Env) (tm : Option TestMode) (token : Token) (email : String) :
    List Effect × Except String HeatingStatus :=
  if testEnabled tm = true then
    ([], .ok ⟨false, 0⟩)
  else
    match env.heatingStatus token with
    | .error e => ([.statusQuery email], .error e)
    | .ok s => ([.statusQuery email], .ok s)

/-- Lines 162 to 183 of route.ts: the preheat-only branch.  Inside the
45-minute activation window with the device off, issue one setPreheat at
ten times the stored level for 43200 seconds (skipped in test mode). -/
def preheatBranch (env : Env) (tm : Option TestMode) (token : Token) (user : UserRow)
    (tp : TempProfileRow) (userNow : Int) (status : HeatingStatus) :
    List Effect × Except String Unit :=
  match createDateWithTime userNow tp.preheatTime with
  | none => ([], .error "Invalid time string")
  | some preheatStart =>
    if isInTimeWindow userNow preheatStart (preheatStart + 45 * msPerMin) = true ∧
        status.isHeating = false then
      if testEnabled tm = true then
        ([], .ok ())
      else
        match env.setPreheat token user.eightUserId (tp.preheatLevel * 10) 43200 with
        | .error e => ([.setPreheatCmd user.eightUserId (tp.preheatLevel * 10) 43200], .error e)
        | .ok _ => ([.setPreheatCmd user.eightUserId (tp.preheatLevel * 10) 43200], .ok ())
    else
      ([], .ok ())

/-- Lines 186 to 221 of route.ts: the sleep-cycle branch, applying the
cycleAction decision (device calls skipped in test mode). -/
def cycleBranch (env : Env) (tm : Option TestMode) (token : Token) (user : UserRow)
    (tp : TempProfileRow) (userNow : Int) (status : HeatingStatus) :
    List Effect × Except String Unit :=
  match getCurrentSleepStage userNow tp.bedTime tp.wakeupTime
      tp.initialSleepLevel tp.midStageSleepLevel tp.finalSleepLevel with
  | none => ([], .error "Invalid time string")
  | some sr =>
    match cycleAction sr status with
    | .setLevel lvl dur =>
      if testEnabled tm = true then
        ([], .ok ())
      else
        match env.setPreheat token user.eightUserId lvl dur with
        | .error e => ([.setPreheatCmd user.eightUserId lvl dur], .error e)
        | .ok _ => ([.setPreheatCmd user.eightUserId lvl dur], .ok ())
    | .turnOff =>
      if testEnabled tm = true then
        ([], .ok ())
      else
        match env.turnOff token user.eightUserId with
        | .error e => ([.turnOffCmd user.eightUserId], .error e)
        | .ok _ => ([.turnOffCmd user.eightUserId], .ok ())
    | .noOp => ([], .ok ())

/-- Lines 126 to 226 of route.ts: the body of the per-profile loop.  The
Except result is the outcome which the surrounding try/catch logs; the
effect list records the external calls made before the user succeeded or
failed. -/
def processUser (env : Env) (tm : Option TestMode) (pr : UserRow × TempProfileRow) :
    List Effect × Except String Unit :=
  match tokenRefreshStep env tm pr.1 with
  | (effs, .error e) => (effs, .error e)
  | (effs, .ok token) =>
    match statusStep env tm token pr.1.email with
    | (effs2, .error e) => (effs ++ effs2, .error e)
    | (effs2, .ok status) =>
      let userNow := env.localize pr.2.timezoneTZ (effectiveNow tm env.wallClock)
      if pr.2.preheatOnly = true then
        let r := preheatBranch env tm token pr.1 pr.2 userNow status
        (effs ++ effs2 ++ r.1, r.2)
      else if pr.2.cycleEnabled = true then
        let r := cycleBranch env tm token pr.1 pr.2 userNow status
        (effs ++ effs2 ++ r.1, r.2)
      else
        (effs ++ effs2, .ok ())

/-- The for-of loop of adjustTemperature: every profile is processed in
order and its caught outcome recorded; one failing profile never stops
the iteration. -/
def runUsers (env : Env) (tm : Option TestMode) :
    List (UserRow × TempProfileRow) → List Effect × List (Except String Unit)
  | [] => ([], [])
  | pr :: rest =>
    let r := processUser env tm pr
    let rs := runUsers env tm rest
    (r.1 ++ rs.1, r.2 :: rs.2)

/-- Observable result of one adjustTemperature run: whether the function
itself threw, the effect trace, and the caught per-user outcomes. -/
structure RunResult where
  outcome : Except String Unit
  effects : List Effect
  userOutcomes : List (Except String Unit)
deriving Repr

/-- adjustTemperature from route.ts: fetch the joined profiles (a failure
is logged and rethrown), then run the per-user loop. -/
def adjustTemperature (env : Env) (tm : Option TestMode) : RunResult :=
  match env.profiles with
  | .error e => ⟨.error e, [.profileFetch], []⟩
  | .ok l =>
    let rs := runUsers env tm l
    ⟨.ok (), .profileFetch :: rs.1, rs.2⟩

/-- The parts of the incoming request which the GET handler inspects.  The
testTime field is none when the query parameter is absent or empty (a
falsy string), some none when present but not a number (Number yields
NaN and the handler throws), and some (some s) for epoch seconds s. -/
structure CronRequest where
  authorizationHeader : Option String
  testTime : Option (Option Int)

/-- The three responses the GET handler can produce. -/
inductive HttpResponse where
  | unauthorized
  | successJson
  | serverError
deriving DecidableEq, Repr

/-- GET from route.ts: the bearer-token check, then the live or dry-run
invocation of adjustTemperature; any thrown error becomes a 500. -/
def handleGET (env : Env) (cronSecret : String) (req : CronRequest) :
    HttpResponse × List Effect :=
  if req.authorizationHeader = some ("Bearer " ++ cronSecret) then
    match req.testTime with
    | some (some secs) =>
      let run := adjustTemperature env (some ⟨true, secs * 1000⟩)
      ((match run.outcome with | .ok _ => .successJson | .error _ => .serverError), run.effects)
    | some none => (.serverError, [])
    | none =>
      let run := adjustTemperature env none
      ((match run.outcome with | .ok _ => .successJson | .error _ => .serverError), run.effects)
  else
    (.unauthorized, [])

/-- Bookkeeping owned by the override detector of the spec (section 3):
the four optional per-user override fields. -/
structure Bookkeeping where
  scheduleOverriddenAt : Option Int
  lastCommandedAt : Option Int
  lastCommandedLevel : Option Int
  manualLevelOverrideAt : Option Int
deriving DecidableEq, Repr

/-- All four override fields absent. -/
def clearedBookkeeping : Bookkeeping := ⟨none, none, none, none⟩

/-- Output of the phase-schedule resolver as consumed by the override
detector: the level in effect (absent for an off phase) and whether any
phase is in effect. -/
structure ResolvedPhase where
  level : Option Int
  isActive : Bool
deriving DecidableEq, Repr

/-- Expiry horizon of a full schedule override: 18 hours. -/
def overrideWindowMs : Int := 18 * 3600000

/-- Protection window of an inferred level tweak: 90 minutes. -/
def levelTweakWindowMs : Int := 90 * 60000

/-- Modelled from the spec: rules 3 to 6 of the OverrideDetector (section
4.3) for an active heating phase with no full override in force, absent
from the provided sources.  Device off with a previous engine command and
manual override allowed infers a manual shutoff (rule 3); device off
otherwise activates the phase (rule 4); a level mismatch follows the
tweak-protection cases of rule 5; a matching level is a no-op (rule 6). -/
def heatingPhaseRules (now : Int) (allow : Bool) (lvl : Int) (st : HeatingStatus)
    (bk : Bookkeeping) : DeviceAction × Bookkeeping :=
  if st.isHeating = false then
    if allow = true ∧ bk.lastCommandedAt ≠ none then
      (DeviceAction.noOp, { bk with scheduleOverriddenAt := some now })
    else
      (DeviceAction.setLevel lvl 3600,
        { bk with lastCommandedAt := some now, lastCommandedLevel := some lvl,
                  manualLevelOverrideAt := none })
  else if st.heatingLevel ≠ lvl then
    match bk.manualLevelOverrideAt with
    | some t0 =>
      if now < t0 + levelTweakWindowMs then
        (DeviceAction.noOp, bk)
      else if bk.lastCommandedLevel = some lvl then
        (DeviceAction.noOp, bk)
      else
        (DeviceAction.setLevel lvl 3600,
          { bk with lastCommandedAt := some now, lastCommandedLevel := some lvl,
                    manualLevelOverrideAt := none })
    | none =>
      if allow = true ∧ bk.lastCommandedLevel = some lvl then
        (DeviceAction.noOp, { bk with manualLevelOverrideAt := some now })
      else
        (DeviceAction.setLevel lvl 3600,
          { bk with lastCommandedAt := some now, lastCommandedLevel := some lvl,
                    manualLevelOverrideAt := none })
  else
    (DeviceAction.noOp, bk)

/-- Modelled from the spec: the OverrideDetector of section 4.3, whose
implementation is not among the provided source files (only the
sleepProfiles schema carrying phases and allowManualOverride, and the
profile CRUD around it, are).  An inactive resolution is a no-op; an off
phase clears the bookkeeping and turns the device off when heating (rules
1 and the off-phase case); for a heating phase, an unexpired full
override with manual override allowed suppresses all actions (rule 2,
with expiry after 18 hours), an expired one is reset, clearing the
override and the last-command marker so that the phase is re-activated
(section 8 expects a SetLevel once the override is 18 hours and 1 second
old), and the remaining rules are heatingPhaseRules. -/
def overrideDetect (now : Int) (allow : Bool) (phase : ResolvedPhase)
    (st : HeatingStatus) (bk : Bookkeeping) : DeviceAction × Bookkeeping :=
  if phase.isActive = false then
    (DeviceAction.noOp, bk)
  else
    match phase.level with
    | none =>
      ((if st.isHeating = true then DeviceAction.turnOff else DeviceAction.noOp),
        clearedBookkeeping)
    | some lvl =>
      match bk.scheduleOverriddenAt with
      | some t0 =>
        if now ≤ t0 + overrideWindowMs then
          if allow = true then
            (DeviceAction.noOp, bk)
          else
            heatingPhaseRules now allow lvl st bk
        else
          heatingPhaseRules now allow lvl st
            { bk with scheduleOverriddenAt := none, lastCommandedAt := none }
      | none => heatingPhaseRules now allow lvl st bk

/-- The expiry carried by the assembled token is the stored column. -/
theorem mkToken_expiresAt (u : UserRow) :
    (mkToken u).eightExpiresAtPosix = u.eightTokenExpiresAt := rfl

/-- Bound on the attempts of the retry loop: never more than the fuel. -/
theorem retryAux_attempts_le (call : Nat → Except ε α) :
    ∀ fuel i, (retryAux call i fuel).attempts ≤ fuel := by
  intro fuel
  induction fuel with
  | zero => intro i; simp [retryAux]
  | succ n ih =>
    intro i
    simp only [retryAux]
    cases hc : call i with
    | ok a => simp
    | error e =>
      split_ifs with h
      · simp
      · simpa using Nat.succ_le_succ (ih (i + 1))

/-- C5: isInTimeWindow matches the non-wrapping characterization when
start is at most stop and the wrapping disjunction when start exceeds
stop; the instant stop is always outside, and the instant start is inside
whenever the window is nonempty (start and stop differ).  The original
unconditional boundary statement fails for the empty window with start
equal to stop (see the counterexample). -/
theorem claim_C5 : ∀ now start stop : Int,
    (isInTimeWindow now start stop = true ↔
      ((start ≤ stop ∧ start ≤ now ∧ now < stop) ∨
        (stop < start ∧ (now ≥ start ∨ now < stop)))) ∧
    (start ≠ stop → isInTimeWindow start start stop = true) ∧
    isInTimeWindow stop start stop = false := by
  intro now start stop
  refine ⟨?_, ?_, ?_⟩
  · unfold isInTimeWindow
    split_ifs with h <;> simp <;> omega
  · intro hne
    unfold isInTimeWindow
    split_ifs with h <;> simp
    omega
  · unfold isInTimeWindow
    split_ifs with h <;> simp
    omega

/-- C5 witness: the characterization and the boundary facts at the
concrete window from 10 to 20 and now 10. -/
theorem claim_C5_witness :
    (isInTimeWindow 10 10 20 = true ↔
      (((10 : Int) ≤ 20 ∧ (10 : Int) ≤ 10 ∧ (10 : Int) < 20) ∨
        ((20 : Int) < 10 ∧ ((10 : Int) ≥ 10 ∨ (10 : Int) < 20)))) ∧
    ((10 : Int) ≠ 20 → isInTimeWindow 10 10 20 = true) ∧
    isInTimeWindow 20 10 20 = false :=
  claim_C5 10 10 20

/-- C5 counterexample: for the empty window with start equal to stop the
instant now equal to start is reported outside, refuting the claim that
the boundary now equal to start is always inside the window. -/
theorem claim_C5_counterexample : isInTimeWindow 0 0 0 = false := by decide

/-- C6: with the default three retries the wrapped call is attempted at
most three times; a call failing twice then succeeding returns the
success after exactly the two backoff delays of 1000 ms and 2000 ms; a
call failing three times rethrows the last error after the third attempt
with the same two delays and no fourth attempt. -/
theorem claim_C6 : ∀ (ε α : Type) (call : Nat → Except ε α),
    (retryApiCall call 3).attempts ≤ 3 ∧
    (∀ e0 e1 a, call 0 = .error e0 → call 1 = .error e1 → call 2 = .ok a →
      retryApiCall call 3 = ⟨.ok a, [1000, 2000], 3⟩) ∧
    (∀ e0 e1 e2, call 0 = .error e0 → call 1 = .error e1 → call 2 = .error e2 →
      retryApiCall call 3 = ⟨.err e2, [1000, 2000], 3⟩) := by
  intro ε α call
  refine ⟨retryAux_attempts_le call 3 0, ?_, ?_⟩
  · intro e0 e1 a h0 h1 h2
    show retryAux call 0 (2 + 1) = _
    rw [retryAux, h0]
    simp only [show ¬(2 = 0) from by decide, if_false]
    rw [retryAux, h1]
    simp only [show ¬(1 = 0) from by decide, if_false]
    rw [retryAux, h2]
    norm_num
  · intro e0 e1 e2 h0 h1 h2
    show retryAux call 0 (2 + 1) = _
    rw [retryAux, h0]
    simp only [show ¬(2 = 0) from by decide, if_false]
    rw [retryAux, h1]
    simp only [show ¬(1 = 0) from by decide, if_false]
    rw [retryAux, h2]
    norm_num

/-- C6 witness: the three conjuncts at the concrete call failing below
attempt index two and succeeding at two. -/
theorem claim_C6_witness :
    retryApiCall (fun i => if i < 2 then (Except.error "boom" : Except String Nat) else .ok 42) 3 =
      ⟨.ok 42, [1000, 2000], 3⟩ :=
  (claim_C6 String Nat _).2.1 "boom" "boom" 42 rfl rfl rfl

/-- C10: a request whose authorization header is not exactly the bearer
form of the configured secret is answered 401 with no profile fetch, no
credential refresh, no device call and no database write. -/
theorem claim_C10 : ∀ (env : Env) (cronSecret : String) (req : CronRequest),
    req.authorizationHeader ≠ some ("Bearer " ++ cronSecret) →
    handleGET env cronSecret req = (HttpResponse.unauthorized, []) := by
  intro env s req h
  unfold handleGET
  rw [if_neg h]

/-- C10 witness: a wrong bearer token at a concrete environment is turned
away with an empty effect trace. -/
theorem claim_C10_witness :
    handleGET
      ⟨.ok [], fun _ _ => .error "down", fun _ => .error "down",
        fun _ _ _ _ => .ok (), fun _ _ => .ok (), fun _ n => n, 0⟩
      "secret" ⟨some "Bearer wrong", none⟩ = (HttpResponse.unauthorized, []) :=
  claim_C10 _ "secret" _ (by decide)

/-- C1 (amended): for an active heating phase with manual override
allowed, the device observed off, a previous engine command recorded, and
no full schedule override currently recorded, the detector stamps
scheduleOverriddenAt with now, emits NoOp and issues no heating command.
The amendment adds the last hypothesis: when a full override is already
recorded and unexpired, rule 2 suppresses the cycle without re-stamping
the field (see the counterexample), and an expired one leads to a
SetLevel instead. -/
theorem claim_C1 : ∀ (now lvl : Int) (st : HeatingStatus) (bk : Bookkeeping),
    st.isHeating = false → bk.lastCommandedAt ≠ none → bk.scheduleOverriddenAt = none →
    overrideDetect now true ⟨some lvl, true⟩ st bk =
      (DeviceAction.noOp, { bk with scheduleOverriddenAt := some now }) := by
  intro now lvl st bk hh hl hs
  simp [overrideDetect, heatingPhaseRules, hs, hh, hl]

/-- C1 witness: the amended rule at a concrete state. -/
theorem claim_C1_witness :
    overrideDetect 500 true ⟨some 30, true⟩ ⟨false, 0⟩ ⟨none, some 100, some 30, none⟩ =
      (DeviceAction.noOp, ⟨some 500, some 100, some 30, none⟩) :=
  claim_C1 500 30 ⟨false, 0⟩ ⟨none, some 100, some 30, none⟩ rfl (by decide) rfl

/-- C1 counterexample: with every condition of the claim satisfied but an
unexpired full override already recorded at instant 0, the detector
leaves scheduleOverriddenAt at 0 instead of setting it to now = 1000, so
the claim as stated fails. -/
theorem claim_C1_counterexample :
    (overrideDetect 1000 true ⟨some 50, true⟩ ⟨false, 0⟩
        ⟨some 0, some (-100), some 50, none⟩).2.scheduleOverriddenAt = some 0 ∧
    (some (0 : Int)) ≠ some (1000 : Int) := by decide

/-- An off result of one cycle check pins userNow in the half-open 30
minute window after the wakeup instant of that cycle and carries no
level. -/
theorem stageCheckCycle_off_bounds {userNow bedTime wakeupTime i m f offset : Int}
    {r : StageResult}
    (h : stageCheckCycle userNow bedTime wakeupTime i m f offset = some r)
    (hoff : r.stage = SleepStage.off) :
    wakeupTime + offset ≤ userNow ∧ userNow < wakeupTime + 30 * msPerMin + offset ∧
      r.targetLevel = none := by
  unfold stageCheckCycle at h
  split_ifs at h with h1 h2 h3 h4 h5 <;>
    (injection h with h; subst h;
      first
        | exact ⟨h5.1, h5.2, rfl⟩
        | simp at hoff)

/-- C3: an off stage is reported only within the first 30 minutes after
the wakeup instant of the cycle in effect (today or the day before), and
then with no level; for the concrete schedule bed 22:00 wake 07:00,
07:10 of day one resolves to the active off stage while every instant
from 07:30 up to the 21:00 start of the next pre-heating phase resolves
to inactive (in particular 07:45). -/
theorem claim_C3 :
    (∀ (userNow : Int) (btStr wtStr : TimeHM) (i m f : Int) (r : StageResult),
      getCurrentSleepStage userNow btStr wtStr i m f = some r →
      r.stage = SleepStage.off →
      ∃ bw w, bedAndWake userNow btStr wtStr = some bw ∧
        (w = bw.2 ∨ w = bw.2 - msPerDay) ∧
        w ≤ userNow ∧ userNow < w + 30 * msPerMin ∧ r.targetLevel = none) ∧
    getCurrentSleepStage (86400000 + 25800000) ⟨22, 0⟩ ⟨7, 0⟩ 10 20 30 =
      some ⟨SleepStage.off, none⟩ ∧
    (∀ userNow : Int, 86400000 + 27000000 ≤ userNow → userNow < 86400000 + 75600000 →
      getCurrentSleepStage userNow ⟨22, 0⟩ ⟨7, 0⟩ 10 20 30 =
        some ⟨SleepStage.inactive, none⟩) := by
  refine ⟨?_, by decide, ?_⟩
  · intro userNow btStr wtStr i m f r h hoff
    unfold getCurrentSleepStage at h
    cases hb : bedAndWake userNow btStr wtStr with
    | none => rw [hb] at h; cases h
    | some bw =>
      rw [hb] at h
      dsimp only at h
      refine ⟨bw, ?_⟩
      cases hc0 : stageCheckCycle userNow bw.1 bw.2 i m f 0 with
      | some r0 =>
        rw [hc0] at h
        dsimp only at h
        injection h with h
        subst h
        have hbd := stageCheckCycle_off_bounds hc0 hoff
        exact ⟨bw.2, rfl, Or.inl rfl, by omega, by omega, hbd.2.2⟩
      | none =>
        rw [hc0] at h
        dsimp only at h
        cases hc1 : stageCheckCycle userNow bw.1 bw.2 i m f (-msPerDay) with
        | some r1 =>
          rw [hc1] at h
          dsimp only at h
          injection h with h
          subst h
          have hbd := stageCheckCycle_off_bounds hc1 hoff
          exact ⟨bw.2 - msPerDay, rfl, Or.inr rfl, by omega, by omega, hbd.2.2⟩
        | none =>
          rw [hc1] at h
          dsimp only at h
          injection h with h
          subst h
          simp at hoff
  · intro userNow h1 h2
    unfold getCurrentSleepStage bedAndWake createDateWithTime stageCheckCycle
    simp only [msPerDay, msPerHour, msPerMin]
    norm_num
    split_ifs <;> first | rfl | omega

/-- C3 witness: 07:45 of day one lies in the post-debounce gap, so the
resolver reports inactive there. -/
theorem claim_C3_witness :
    getCurrentSleepStage (86400000 + 27900000) ⟨22, 0⟩ ⟨7, 0⟩ 10 20 30 =
      some ⟨SleepStage.inactive, none⟩ :=
  claim_C3.2.2 (86400000 + 27900000) (by decide) (by decide)

/-- C2: in sleep-cycle mode with the off stage in effect, a heating
device receives exactly one turn-off command and a device that is not
heating receives nothing (a NoOp iteration). -/
theorem claim_C2 : ∀ (env : Env) (u : UserRow) (tp : TempProfileRow)
    (st : HeatingStatus) (tl : Option Int),
    ¬ env.wallClock > u.eightTokenExpiresAt →
    env.heatingStatus (mkToken u) = .ok st →
    tp.preheatOnly = false →
    tp.cycleEnabled = true →
    getCurrentSleepStage (env.localize tp.timezoneTZ env.wallClock) tp.bedTime tp.wakeupTime
      tp.initialSleepLevel tp.midStageSleepLevel tp.finalSleepLevel =
      some ⟨SleepStage.off, tl⟩ →
    (st.isHeating = true →
      (processUser env none (u, tp)).1 =
        [Effect.statusQuery u.email, Effect.turnOffCmd u.eightUserId]) ∧
    (st.isHeating = false →
      processUser env none (u, tp) = ([Effect.statusQuery u.email], Except.ok ())) := by
  intro env u tp st tl hTok hSt hPre hCyc hStage
  constructor
  · intro hH
    simp [processUser, tokenRefreshStep, statusStep, cycleBranch, cycleAction,
      testEnabled, effectiveNow, mkToken_expiresAt, hTok, hSt, hPre, hCyc, hStage, hH]
    cases env.turnOff (mkToken u) u.eightUserId <;> simp
  · intro hH
    simp [processUser, tokenRefreshStep, statusStep, cycleBranch, cycleAction,
      testEnabled, effectiveNow, mkToken_expiresAt, hTok, hSt, hPre, hCyc, hStage, hH]

/-- C2 witness: at 07:10 of day one with schedule bed 22:00 wake 07:00, a
heating device is commanded off. -/
theorem claim_C2_witness :
    (processUser
      ⟨.ok [], fun _ _ => .error "unused", fun _ => .ok ⟨true, 50⟩,
        fun _ _ _ _ => .ok (), fun _ _ => .ok (), fun _ n => n, 86400000 + 25800000⟩
      none
      (⟨"a@b.c", "uid1", "acc", "ref", 999999999999⟩,
        ⟨⟨22, 0⟩, ⟨7, 0⟩, 10, 20, 30, true, "UTC", ⟨21, 0⟩, 7, false⟩)).1 =
      [Effect.statusQuery "a@b.c", Effect.turnOffCmd "uid1"] :=
  (claim_C2 _ _ _ ⟨true, 50⟩ none (by decide) rfl rfl rfl (by decide)).1 rfl

/-- How the engine behaves on two back-to-back evaluations with the same
environment. -/
def runTwice (env : Env) (tm : Option TestMode) (pr : UserRow × TempProfileRow) :
    (List Effect × Except String Unit) × (List Effect × Except String Unit) :=
  (processUser env tm pr, processUser env tm pr)

/-- C9: with an active heating stage and the device already heating at the
target level, two consecutive evaluations with unchanged external state
both reduce to the status query alone — no device command and no
database write on either evaluation. -/
theorem claim_C9 : ∀ (env : Env) (u : UserRow) (tp : TempProfileRow)
    (lvl : Int) (stg : SleepStage),
    ¬ env.wallClock > u.eightTokenExpiresAt →
    env.heatingStatus (mkToken u) = .ok ⟨true, lvl⟩ →
    tp.preheatOnly = false →
    tp.cycleEnabled = true →
    getCurrentSleepStage (env.localize tp.timezoneTZ env.wallClock) tp.bedTime tp.wakeupTime
      tp.initialSleepLevel tp.midStageSleepLevel tp.finalSleepLevel =
      some ⟨stg, some lvl⟩ →
    stg ≠ SleepStage.inactive →
    stg ≠ SleepStage.off →
    runTwice env none (u, tp) =
      (([Effect.statusQuery u.email], Except.ok ()),
        ([Effect.statusQuery u.email], Except.ok ())) := by
  intro env u tp lvl stg hTok hSt hPre hCyc hStage h1 h2
  have hone : processUser env none (u, tp) = ([Effect.statusQuery u.email], Except.ok ()) := by
    simp [processUser, tokenRefreshStep, statusStep, cycleBranch, cycleAction,
      testEnabled, effectiveNow, mkToken_expiresAt, hTok, hSt, hPre, hCyc, hStage, h1, h2]
  unfold runTwice
  rw [hone]

/-- C9 witness: the mid stage at 23:30 with the device already at level
20 yields the pure status query on both evaluations. -/
theorem claim_C9_witness :
    runTwice
      ⟨.ok [], fun _ _ => .error "unused", fun _ => .ok ⟨true, 20⟩,
        fun _ _ _ _ => .ok (), fun _ _ => .ok (), fun _ n => n, 84600000⟩
      none
      (⟨"a@b.c", "uid1", "acc", "ref", 999999999999⟩,
        ⟨⟨22, 0⟩, ⟨7, 0⟩, 10, 20, 30, true, "UTC", ⟨21, 0⟩, 7, false⟩) =
      (([Effect.statusQuery "a@b.c"], Except.ok ()),
        ([Effect.statusQuery "a@b.c"], Except.ok ())) :=
  claim_C9 _ _ _ 20 SleepStage.mid (by decide) rfl rfl rfl (by decide)
    (by decide) (by decide)

/-- The token refresh step never records a device turn-off effect. -/
theorem tokenRefreshStep_no_turnOff (env : Env) (tm : Option TestMode) (user : UserRow)
    (uid : String) : Effect.turnOffCmd uid ∉ (tokenRefreshStep env tm user).1 := by
  unfold tokenRefreshStep
  split_ifs with h
  · cases env.refreshToken user.eightRefreshToken user.eightUserId <;> simp
  · simp

/-- The status query step never records a device turn-off effect. -/
theorem statusStep_no_turnOff (env : Env) (tm : Option TestMode) (token : Token)
    (email uid : String) : Effect.turnOffCmd uid ∉ (statusStep env tm token email).1 := by
  unfold statusStep
  split_ifs with h
  · simp
  · cases env.heatingStatus token <;> simp

/-- The preheat-only branch never records a device turn-off effect. -/
theorem preheatBranch_no_turnOff (env : Env) (tm : Option TestMode) (token : Token)
    (user : UserRow) (tp : TempProfileRow) (userNow : Int) (status : HeatingStatus)
    (uid : String) : Effect.turnOffCmd uid ∉ (preheatBranch env tm token user tp userNow status).1 := by
  unfold preheatBranch
  cases createDateWithTime userNow tp.preheatTime with
  | none => simp
  | some ps =>
    dsimp only
    split_ifs with h1 h2
    · simp
    · cases env.setPreheat token user.eightUserId (tp.preheatLevel * 10) 43200 <;> simp
    · simp

/-- C4: in preheat-only mode, inside the 45-minute activation window with
the device off, a live run issues exactly one set-level command at ten
times the stored level for 43200 seconds; and in this mode no run, live
or dry, ever records a turn-off command, whatever the time, device state
or collaborator behaviour. -/
theorem claim_C4 :
    (∀ (env : Env) (u : UserRow) (tp : TempProfileRow) (st : HeatingStatus) (ps : Int),
      ¬ env.wallClock > u.eightTokenExpiresAt →
      env.heatingStatus (mkToken u) = .ok st →
      tp.preheatOnly = true →
      createDateWithTime (env.localize tp.timezoneTZ env.wallClock) tp.preheatTime = some ps →
      isInTimeWindow (env.localize tp.timezoneTZ env.wallClock) ps (ps + 45 * msPerMin) = true →
      st.isHeating = false →
      (processUser env none (u, tp)).1 =
        [Effect.statusQuery u.email,
          Effect.setPreheatCmd u.eightUserId (tp.preheatLevel * 10) 43200]) ∧
    (∀ (env : Env) (tm : Option TestMode) (u : UserRow) (tp : TempProfileRow) (uid : String),
      tp.preheatOnly = true →
      Effect.turnOffCmd uid ∉ (processUser env tm (u, tp)).1) := by
  constructor
  · intro env u tp st ps hTok hSt hPre hPs hWin hH
    simp [processUser, tokenRefreshStep, statusStep, preheatBranch,
      testEnabled, effectiveNow, mkToken_expiresAt, hTok, hSt, hPre, hPs, hWin, hH]
    cases env.setPreheat (mkToken u) u.eightUserId (tp.preheatLevel * 10) 43200 <;> simp
  · intro env tm u tp uid hPre
    unfold processUser
    rcases h1 : tokenRefreshStep env tm (u, tp).1 with ⟨e1, r1⟩
    have m1 := tokenRefreshStep_no_turnOff env tm (u, tp).1 uid
    rw [h1] at m1
    cases r1 with
    | error e => simpa using m1
    | ok token =>
      dsimp only
      rcases h2 : statusStep env tm token (u, tp).1.email with ⟨e2, r2⟩
      have m2 := statusStep_no_turnOff env tm token (u, tp).1.email uid
      rw [h2] at m2
      cases r2 with
      | error e =>
        simp only [List.mem_append]
        intro hc
        rcases hc with hc | hc
        · exact m1 hc
        · exact m2 hc
      | ok status =>
        dsimp only
        rw [show (u, tp).2.preheatOnly = true from hPre]
        simp only [eq_self_iff_true, if_true]
        have m3 := preheatBranch_no_turnOff env tm token (u, tp).1 (u, tp).2
          (env.localize (u, tp).2.timezoneTZ (effectiveNow tm env.wallClock)) status uid
        simp only [List.mem_append]
        intro hc
        rcases hc with (hc | hc) | hc
        · exact m1 hc
        · exact m2 hc
        · exact m3 hc

/-- C4 witness: preheat activation at 21:10 with preheat time 21:00 and a
cold bed issues the single set-level command at level 70 for 43200
seconds. -/
theorem claim_C4_witness :
    (processUser
      ⟨.ok [], fun _ _ => .error "unused", fun _ => .ok ⟨false, 0⟩,
        fun _ _ _ _ => .ok (), fun _ _ => .ok (), fun _ n => n, 76800000⟩
      none
      (⟨"a@b.c", "uid1", "acc", "ref", 999999999999⟩,
        ⟨⟨22, 0⟩, ⟨7, 0⟩, 10, 20, 30, true, "UTC", ⟨21, 0⟩, 7, true⟩)).1 =
      [Effect.statusQuery "a@b.c", Effect.setPreheatCmd "uid1" 70 43200] :=
  claim_C4.1 _ _ _ ⟨false, 0⟩ 75600000 (by decide) rfl rfl (by decide) (by decide) rfl

/-- The caught outcome list of the loop is the pointwise outcome of each
profile: a failing profile contributes its error and never stops the
processing of the profiles after it. -/
theorem runUsers_outcomes (env : Env) (tm : Option TestMode) :
    ∀ l, (runUsers env tm l).2 = l.map (fun pr => (processUser env tm pr).2) := by
  intro l
  induction l with
  | nil => rfl
  | cons pr rest ih => simp [runUsers, ih]

/-- C7: when the profile fetch succeeds, the run returns normally and
records one caught outcome per profile, each computed from that profile
alone, whatever errors individual profiles hit; when the profile fetch
fails, the run rethrows that error, performs nothing beyond the fetch and
processes no user. -/
theorem claim_C7 : ∀ (env : Env) (tm : Option TestMode),
    (∀ l, env.profiles = .ok l →
      (adjustTemperature env tm).outcome = .ok () ∧
      (adjustTemperature env tm).userOutcomes =
        l.map (fun pr => (processUser env tm pr).2)) ∧
    (∀ e, env.profiles = .error e →
      (adjustTemperature env tm).outcome = .error e ∧
      (adjustTemperature env tm).effects = [Effect.profileFetch] ∧
      (adjustTemperature env tm).userOutcomes = []) := by
  intro env tm
  constructor
  · intro l hl
    unfold adjustTemperature
    rw [hl]
    exact ⟨rfl, runUsers_outcomes env tm l⟩
  · intro e he
    unfold adjustTemperature
    rw [he]
    exact ⟨rfl, rfl, rfl⟩

/-- C7 witness: with a device that always fails its status query, the
single user ends in a caught error while the run itself still returns
normally with that one outcome recorded. -/
theorem claim_C7_witness :
    (adjustTemperature
      ⟨.ok [(⟨"a@b.c", "uid1", "acc", "ref", 999999999999⟩,
          ⟨⟨22, 0⟩, ⟨7, 0⟩, 10, 20, 30, true, "UTC", ⟨21, 0⟩, 7, false⟩)],
        fun _ _ => .error "refresh down", fun _ => .error "device down",
        fun _ _ _ _ => .ok (), fun _ _ => .ok (), fun _ n => n, 0⟩ none).outcome =
      Except.ok () ∧
    (adjustTemperature
      ⟨.ok [(⟨"a@b.c", "uid1", "acc", "ref", 999999999999⟩,
          ⟨⟨22, 0⟩, ⟨7, 0⟩, 10, 20, 30, true, "UTC", ⟨21, 0⟩, 7, false⟩)],
        fun _ _ => .error "refresh down", fun _ => .error "device down",
        fun _ _ _ _ => .ok (), fun _ _ => .ok (), fun _ n => n, 0⟩ none).userOutcomes =
      [(⟨"a@b.c", "uid1", "acc", "ref", 999999999999⟩,
          ⟨⟨22, 0⟩, ⟨7, 0⟩, 10, 20, 30, true, "UTC", ⟨21, 0⟩, 7, false⟩)].map
        (fun pr => (processUser
          ⟨.ok [(⟨"a@b.c", "uid1", "acc", "ref", 999999999999⟩,
              ⟨⟨22, 0⟩, ⟨7, 0⟩, 10, 20, 30, true, "UTC", ⟨21, 0⟩, 7, false⟩)],
            fun _ _ => .error "refresh down", fun _ => .error "device down",
            fun _ _ _ _ => .ok (), fun _ _ => .ok (), fun _ n => n, 0⟩ none pr).2) :=
  (claim_C7 _ none).1 _ rfl

/-- What one loop iteration reduces to in enabled test mode: only the
local schedule evaluation at the simulated instant, with an empty effect
trace; the wall clock, the device and every other collaborator except
the time-zone localization are out of the picture. -/
def testDecision (userNow : Int) (pr : UserRow × TempProfileRow) :
    List Effect × Except String Unit :=
  if pr.2.preheatOnly = true then
    match createDateWithTime userNow pr.2.preheatTime with
    | none => ([], .error "Invalid time string")
    | some _ => ([], .ok ())
  else if pr.2.cycleEnabled = true then
    match getCurrentSleepStage userNow pr.2.bedTime pr.2.wakeupTime
        pr.2.initialSleepLevel pr.2.midStageSleepLevel pr.2.finalSleepLevel with
    | none => ([], .error "Invalid time string")
    | some _ => ([], .ok ())
  else
    ([], .ok ())

/-- In enabled test mode one iteration is exactly the pure test decision
at the localized simulated instant. -/
theorem processUser_test (env : Env) (t : Int) (pr : UserRow × TempProfileRow) :
    processUser env (some ⟨true, t⟩) pr =
      testDecision (env.localize pr.2.timezoneTZ t) pr := by
  simp only [processUser, tokenRefreshStep, statusStep, preheatBranch, cycleBranch,
    testDecision, testEnabled, effectiveNow]
  simp only [Bool.true_eq_false, false_and, if_false, if_true, eq_self_iff_true,
    true_and, List.nil_append]
  split_ifs with h1 h2
  · cases createDateWithTime (env.localize pr.2.timezoneTZ t) pr.2.preheatTime with
    | none => rfl
    | some ps => dsimp only; split_ifs <;> rfl
  · cases getCurrentSleepStage (env.localize pr.2.timezoneTZ t) pr.2.bedTime pr.2.wakeupTime
        pr.2.initialSleepLevel pr.2.midStageSleepLevel pr.2.finalSleepLevel with
    | none => rfl
    | some sr =>
      dsimp only
      cases cycleAction sr ⟨false, 0⟩ <;> rfl
  · rfl

/-- The test decision never has effects. -/
theorem testDecision_effects (userNow : Int) (pr : UserRow × TempProfileRow) :
    (testDecision userNow pr).1 = [] := by
  unfold testDecision
  split_ifs with h1 h2
  · cases createDateWithTime userNow pr.2.preheatTime <;> rfl
  · cases getCurrentSleepStage userNow pr.2.bedTime pr.2.wakeupTime
        pr.2.initialSleepLevel pr.2.midStageSleepLevel pr.2.finalSleepLevel <;> rfl
  · rfl

/-- In enabled test mode the whole loop leaves an empty effect trace. -/
theorem runUsers_test_effects (env : Env) (t : Int) :
    ∀ l, (runUsers env (some ⟨true, t⟩) l).1 = [] := by
  intro l
  induction l with
  | nil => rfl
  | cons pr rest ih =>
    simp [runUsers, ih, processUser_test, testDecision_effects]

/-- C8: a dry run with simulated instant t evaluates every user at t (the
iteration equals the pure test decision at the localized t), leaves an
empty per-user effect trace, is identical under any other environment
sharing the localization (so it never touches the wall clock, the device,
the token refresher or the database), and a full dry run records nothing
beyond the profile fetch. -/
theorem claim_C8 : ∀ (env env2 : Env) (t : Int) (pr : UserRow × TempProfileRow),
    env.localize = env2.localize →
    ((processUser env (some ⟨true, t⟩) pr).1 = [] ∧
      processUser env (some ⟨true, t⟩) pr = testDecision (env.localize pr.2.timezoneTZ t) pr ∧
      processUser env (some ⟨true, t⟩) pr = processUser env2 (some ⟨true, t⟩) pr) ∧
    (∀ l, env.profiles = .ok l →
      (adjustTemperature env (some ⟨true, t⟩)).effects = [Effect.profileFetch]) := by
  intro env env2 t pr hloc
  refine ⟨⟨?_, processUser_test env t pr, ?_⟩, ?_⟩
  · rw [processUser_test]
    exact testDecision_effects _ _
  · rw [processUser_test, processUser_test, hloc]
  · intro l hl
    unfold adjustTemperature
    rw [hl]
    simp [runUsers_test_effects]

/-- C8 witness: the dry-run guarantees at a concrete pair of environments
which share only the identity localization. -/
theorem claim_C8_witness :
    ((processUser
        ⟨.ok [], fun _ _ => .error "refresh down", fun _ => .error "device down",
          fun _ _ _ _ => .error "set", fun _ _ => .error "off", fun _ n => n, 123⟩
        (some ⟨true, 86400000 + 25800000⟩)
        (⟨"a@b.c", "uid1", "acc", "ref", 0⟩,
          ⟨⟨22, 0⟩, ⟨7, 0⟩, 10, 20, 30, true, "UTC", ⟨21, 0⟩, 7, false⟩)).1 = [] ∧
      processUser
        ⟨.ok [], fun _ _ => .error "refresh down", fun _ => .error "device down",
          fun _ _ _ _ => .error "set", fun _ _ => .error "off", fun _ n => n, 123⟩
        (some ⟨true, 86400000 + 25800000⟩)
        (⟨"a@b.c", "uid1", "acc", "ref", 0⟩,
          ⟨⟨22, 0⟩, ⟨7, 0⟩, 10, 20, 30, true, "UTC", ⟨21, 0⟩, 7, false⟩) =
        testDecision (86400000 + 25800000)
          (⟨"a@b.c", "uid1", "acc", "ref", 0⟩,
            ⟨⟨22, 0⟩, ⟨7, 0⟩, 10, 20, 30, true, "UTC", ⟨21, 0⟩, 7, false⟩) ∧
      processUser
        ⟨.ok [], fun _ _ => .error "refresh down", fun _ => .error "device down",
          fun _ _ _ _ => .error "set", fun _ _ => .error "off", fun _ n => n, 123⟩
        (some ⟨true, 86400000 + 25800000⟩)
        (⟨"a@b.c", "uid1", "acc", "ref", 0⟩,
          ⟨⟨22, 0⟩, ⟨7, 0⟩, 10, 20, 30, true, "UTC", ⟨21, 0⟩, 7, false⟩) =
        processUser
          ⟨.ok [], fun _ _ => .ok ⟨"t", "t", 5, "t"⟩, fun _ => .ok ⟨true, 9⟩,
            fun _ _ _ _ => .ok (), fun _ _ => .ok (), fun _ n => n, 456⟩
          (some ⟨true, 86400000 + 25800000⟩)
          (⟨"a@b.c", "uid1", "acc", "ref", 0⟩,
            ⟨⟨22, 0⟩, ⟨7, 0⟩, 10, 20, 30, true, "UTC", ⟨21, 0⟩, 7, false⟩)) ∧
    (∀ l, (Except.ok ([] : List (UserRow × TempProfileRow)) : Except String _) = .ok l →
      (adjustTemperature
        ⟨.ok [], fun _ _ => .error "refresh down", fun _ => .error "device down",
          fun _ _ _ _ => .error "set", fun _ _ => .error "off", fun _ n => n, 123⟩
        (some ⟨true, 86400000 + 25800000⟩)).effects = [Effect.profileFetch]) :=
  claim_C8 _ _ (86400000 + 25800000) _ rfl

/-! Concrete sanity evaluations of the embedded definitions. -/

example : retryApiCall (fun _ => (Except.ok 7 : Except String Nat)) 3 = ⟨.ok 7, [], 1⟩ := rfl

example : retryApiCall (fun _ => (Except.error "x" : Except String Nat)) 3 =
    ⟨.err "x", [1000, 2000], 3⟩ := rfl

example :
    retryApiCall (fun i => if i < 2 then (Except.error "x" : Except String Nat) else .ok 5) 3 =
    ⟨.ok 5, [1000, 2000], 3⟩ := rfl

example :
    getCurrentSleepStage (86400000 + 25800000) ⟨22, 0⟩ ⟨7, 0⟩ 10 20 30 =
    some ⟨.off, none⟩ := by decide

example :
    getCurrentSleepStage (86400000 + 27900000) ⟨22, 0⟩ ⟨7, 0⟩ 10 20 30 =
    some ⟨.inactive, none⟩ := by decide

example :
    getCurrentSleepStage (84600000) ⟨22, 0⟩ ⟨7, 0⟩ 10 20 30 =
    some ⟨.mid, some 20⟩ := by decide

example :
    getCurrentSleepStage (81000000) ⟨22, 0⟩ ⟨7, 0⟩ 10 20 30 =
    some ⟨.initial, some 10⟩ := by decide

example :
    overrideDetect 1000 true ⟨some 50, true⟩ ⟨false, 0⟩ ⟨none, some 0, some 50, none⟩ =
    (DeviceAction.noOp, ⟨some 1000, some 0, some 50, none⟩) := by decide

example :
    overrideDetect (18 * 3600000 + 2000) true ⟨some 50, true⟩ ⟨false, 0⟩
      ⟨some 1000, some 0, some 50, none⟩ =
    (DeviceAction.setLevel 50 3600,
      ⟨none, some (18 * 3600000 + 2000), some 50, none⟩) := by decide
